import Mathlib

/-!
Verification development for the ibkr-hmrc repository.

Shallow embedding of the cost-basis allocation core:
`scripts/section_104_pooling.py` (Section 104 share pooling with same-day
and 30-day matching), the FIFO lot ledger `_calculate_fifo_cost` from
`scripts/ibkr_trial_balance.py`, and the tax computations from
`scripts/tax_computation.py`.

Python `Decimal` values are modelled as exact rationals (`ℚ`); every
`quantize` call in the source is modelled by an explicit rounding
function at the same call site.  Calendar dates are modelled by their
proleptic-Gregorian ordinal (an integer number of days, as returned by
Python's `date.toordinal`); `timedelta(days=30)` becomes the integer 30
and `date(9999, 12, 31)` becomes its ordinal 3652059.
-/

/-- Round `x` to a multiple of the quantum `u`, ties away from zero
(Python `Decimal.quantize(..., rounding=ROUND_HALF_UP)`). -/
def quantizeHU (u x : ℚ) : ℚ :=
  if x < 0 then -((⌊-x / u + 1/2⌋ : ℚ) * u) else (⌊x / u + 1/2⌋ : ℚ) * u

/-- Monetary rounding to 2 decimal places, half-up (`Decimal('0.01')`, `ROUND_HALF_UP`). -/
def quantize2 (x : ℚ) : ℚ := quantizeHU (1/100) x

/-- Unit-cost rounding to 4 decimal places, half-up (`Decimal('0.0001')`, `ROUND_HALF_UP`). -/
def quantize4 (x : ℚ) : ℚ := quantizeHU (1/10000) x

/-- Round `x` to a multiple of `u`, ties to even (Python `Decimal.quantize`
with the default context rounding `ROUND_HALF_EVEN`, as used in
`_calculate_fifo_cost`). -/
def quantizeHE (u x : ℚ) : ℚ :=
  let q := x / u
  let n := ⌊q⌋
  let r := q - (n : ℚ)
  let m : ℤ := if r < 1/2 then n else if 1/2 < r then n + 1
    else if n % 2 = 0 then n else n + 1
  (m : ℚ) * u

/-- Banker's rounding to 2 decimal places (`.quantize(Decimal('0.01'))` with
default context rounding). -/
def quantize2HE (x : ℚ) : ℚ := quantizeHE (1/100) x

/-- Mirror of `DisposalRecord` in `section_104_pooling.py`: a disposal (or
unmatched portion) awaiting same-day/30-day matching. -/
structure DisposalRecord where
  date : ℤ
  symbol : String
  qty_remaining : ℚ
  original_qty : ℚ
  total_proceeds_gbp : ℚ
deriving DecidableEq

/-- Mirror of `MatchedDisposal`: a completed disposal with cost and gain/loss. -/
structure MatchedDisposal where
  date : ℤ
  symbol : String
  quantity : ℚ
  proceeds_gbp : ℚ
  cost_gbp : ℚ
  gain_loss_gbp : ℚ
  matching_rule : String
deriving DecidableEq

/-- One Section 104 pool position: the `{'qty': ..., 'cost': ...}` dict value. -/
structure PoolEntry where
  qty : ℚ
  cost : ℚ
deriving DecidableEq

/-- State of the `Section104Pool` engine.  The `defaultdict` of pools becomes
an association list read through `getPool` (absent symbol = zero entry); the
warning printed to stderr on pool underflow becomes an entry of `warnings`. -/
structure Section104Pool where
  pools : List (String × PoolEntry)
  pending_disposals : List DisposalRecord
  disposals : List MatchedDisposal
  warnings : List String
deriving DecidableEq

/-- Freshly constructed `Section104Pool()`. -/
def initPool : Section104Pool := ⟨[], [], [], []⟩

/-- Read a symbol's pool; a missing key yields the defaultdict default
`{'qty': 0, 'cost': 0}`. -/
def getPool (ps : List (String × PoolEntry)) (symbol : String) : PoolEntry :=
  match ps.lookup symbol with
  | some p => p
  | none => ⟨0, 0⟩

/-- Write a symbol's pool entry. -/
def setPool (ps : List (String × PoolEntry)) (symbol : String) (p : PoolEntry) :
    List (String × PoolEntry) :=
  (symbol, p) :: ps.filter fun kv => kv.1 != symbol

/-- Body of the flush loop in `_flush_pending_disposals_for_symbol` for one
disposal that is past its window: take the unmatched quantity from the pool
(zero cost and a warning when the pool is empty; otherwise average cost,
clamping the pool at zero) and build the `section_104` record. -/
def flushOne (pool : PoolEntry) (disp : DisposalRecord) (warnings : List String) :
    PoolEntry × MatchedDisposal × List String :=
  let qty_to_take := disp.qty_remaining
  let proceeds := quantize2 (disp.total_proceeds_gbp * qty_to_take / disp.original_qty)
  if pool.qty ≤ 0 then
    (pool,
     ⟨disp.date, disp.symbol, qty_to_take, proceeds, 0, proceeds - 0, "section_104"⟩,
     warnings ++ ["Section 104 flush but pool empty. Using zero cost."])
  else
    let avg_cost := pool.cost / pool.qty
    let cost_gbp := quantize2 (avg_cost * qty_to_take)
    let qty' := pool.qty - qty_to_take
    let cost' := pool.cost - cost_gbp
    (⟨if qty' < 0 then 0 else qty', if cost' < 0 then 0 else cost'⟩,
     ⟨disp.date, disp.symbol, qty_to_take, proceeds, cost_gbp, proceeds - cost_gbp,
      "section_104"⟩,
     warnings)

/-- One iteration of the loop in `_flush_pending_disposals_for_symbol`:
disposals of another symbol, already-exhausted disposals, and disposals whose
window is still open go back on the pending list; the rest are flushed. -/
def flushStep (symbol : String) (before_date : ℤ)
    (st : PoolEntry × List DisposalRecord × List MatchedDisposal × List String)
    (disp : DisposalRecord) :
    PoolEntry × List DisposalRecord × List MatchedDisposal × List String :=
  let (pool, np, ds, ws) := st
  if disp.symbol ≠ symbol ∨ disp.qty_remaining ≤ 0 then (pool, np ++ [disp], ds, ws)
  else if disp.date + 30 ≥ before_date then (pool, np ++ [disp], ds, ws)
  else
    let r := flushOne pool disp ws
    (r.1, np, ds ++ [r.2.1], r.2.2)

/-- Mirror of `Section104Pool._flush_pending_disposals_for_symbol`: pending
disposals of `symbol` with `date + 30 < before_date` are taken from the pool
via `flushOne`; all others are kept, in order. -/
def flushPendingForSymbol (s : Section104Pool) (symbol : String) (before_date : ℤ) :
    Section104Pool :=
  let st := s.pending_disposals.foldl (flushStep symbol before_date)
    (getPool s.pools symbol, ([] : List DisposalRecord),
     s.disposals, s.warnings)
  { pools := setPool s.pools symbol st.1
    pending_disposals := st.2.1
    disposals := st.2.2.1
    warnings := st.2.2.2 }

/-- Stable insertion of an indexed pending disposal by disposal date
(an element is placed after all earlier elements with date ≤ its own). -/
def insertByDate (x : ℕ × DisposalRecord) :
    List (ℕ × DisposalRecord) → List (ℕ × DisposalRecord)
  | [] => [x]
  | y :: ys => if y.2.date ≤ x.2.date then y :: insertByDate x ys else x :: y :: ys

/-- Stable sort by disposal date, modelling `thirty_day.sort(key=lambda x: x[1].date)`
(Python's stable sort and a stable insertion sort agree on sorted output). -/
def sortByDate (l : List (ℕ × DisposalRecord)) : List (ℕ × DisposalRecord) :=
  l.foldl (fun acc x => insertByDate x acc) []

/-- Mirror of the body of `Section104Pool.add_acquisition` (the part after the
`qty <= 0` guard): match the acquisition against pending disposals, same-day
first then 30-day oldest-first, then credit any remainder to the pool. -/
def addAcquisitionCore (s : Section104Pool) (acq_date : ℤ) (symbol : String)
    (qty cost_gbp : ℚ) : Section104Pool :=
  if qty ≤ 0 then s
  else
    -- qty > 0 in this branch, so the Python `if qty` guard is taken
    let cost_per_unit := quantize4 (cost_gbp / qty)
    let indexed := s.pending_disposals.enum
    let same_day := indexed.filter fun p =>
      decide (p.2.symbol = symbol ∧ p.2.date = acq_date)
    let thirty_day := sortByDate (indexed.filter fun p =>
      decide (p.2.symbol = symbol ∧ p.2.date < acq_date ∧
        acq_date - p.2.date ≤ 30 ∧ p ∉ same_day))
    let to_match := same_day ++ thirty_day
    let st := to_match.foldl
      (fun (st : List DisposalRecord × List MatchedDisposal × ℚ × ℚ) p =>
        let (pending, ds, rq, rc) := st
        let disp := pending.getD p.1 ⟨0, "", 0, 0, 0⟩
        if rq ≤ 0 ∨ disp.qty_remaining ≤ 0 then st
        else
          let match_qty := min rq disp.qty_remaining
          let match_cost := quantize2 (cost_per_unit * match_qty)
          let match_proceeds :=
            quantize2 (disp.total_proceeds_gbp * match_qty / disp.original_qty)
          let rule := if disp.date = acq_date then "same_day" else "thirty_day"
          let md : MatchedDisposal :=
            ⟨disp.date, symbol, match_qty, match_proceeds, match_cost,
             match_proceeds - match_cost, rule⟩
          (pending.set p.1 { disp with qty_remaining := disp.qty_remaining - match_qty },
           ds ++ [md], rq - match_qty, rc - match_cost))
      (s.pending_disposals, s.disposals, qty, cost_gbp)
    let pending := st.1.filter fun d => decide (0 < d.qty_remaining)
    let rq := st.2.2.1
    let rc := st.2.2.2
    { pools :=
        if 0 < rq then
          let p := getPool s.pools symbol
          setPool s.pools symbol ⟨p.qty + rq, p.cost + rc⟩
        else s.pools
      pending_disposals := pending
      disposals := st.2.1
      warnings := s.warnings }

/-- Mirror of the body of `Section104Pool.remove_disposal` (after the
`qty <= 0` guard): flush pending disposals of this symbol that are past the
30-day window, then append the new disposal to the pending list. -/
def removeDisposalCore (s : Section104Pool) (disp_date : ℤ) (symbol : String)
    (qty proceeds_gbp : ℚ) : Section104Pool :=
  if qty ≤ 0 then s
  else
    let s' := flushPendingForSymbol s symbol disp_date
    { s' with pending_disposals :=
        s'.pending_disposals ++ [⟨disp_date, symbol, qty, qty, proceeds_gbp⟩] }

/-- Mirror of `Section104Pool.add_acquisition` as seen by callers: the method
never raises, and a non-positive quantity just returns (state unchanged). -/
def add_acquisition (s : Section104Pool) (acq_date : ℤ) (symbol : String)
    (qty cost_gbp : ℚ) : Except String Section104Pool :=
  Except.ok (addAcquisitionCore s acq_date symbol qty cost_gbp)

/-- Mirror of `Section104Pool.remove_disposal` as seen by callers: the method
never raises, and a non-positive quantity just returns (state unchanged). -/
def remove_disposal (s : Section104Pool) (disp_date : ℤ) (symbol : String)
    (qty proceeds_gbp : ℚ) : Except String Section104Pool :=
  Except.ok (removeDisposalCore s disp_date symbol qty proceeds_gbp)

/-- Ordinal of Python's `date(9999, 12, 31)`, the sentinel passed by
`flush_all_pending`. -/
def maxDateOrdinal : ℤ := 3652059

/-- Mirror of `Section104Pool.flush_all_pending`: flush every symbol that has
a pending disposal, against the sentinel date `date(9999, 12, 31)`.  The
Python `set` of symbols is modelled by first-occurrence deduplication; claims
proved below do not depend on the iteration order of distinct symbols. -/
def flushAllPending (s : Section104Pool) : Section104Pool :=
  ((s.pending_disposals.map (·.symbol)).dedup).foldl
    (fun st sym => flushPendingForSymbol st sym maxDateOrdinal) s

-- Sanity checks: the three tests shipped at the bottom of
-- `section_104_pooling.py`, replayed against the embedding.

example : -- _test_section_104_only (dates as ordinals, relative spacing preserved)
    let s := flushAllPending (removeDisposalCore
      (addAcquisitionCore (addAcquisitionCore initPool 0 "AAPL" 100 15000)
        14 "AAPL" 50 8000) 30 "AAPL" 75 13500)
    getPool s.pools "AAPL" = ⟨75, 11500⟩ ∧
      s.disposals = [⟨30, "AAPL", 75, 13500, 11500, 2000, "section_104"⟩] := by
  decide!

example : -- _test_same_day_matching
    let s := addAcquisitionCore (removeDisposalCore initPool 10 "XYZ" 100 11000)
      10 "XYZ" 100 9000
    s.disposals = [⟨10, "XYZ", 100, 11000, 9000, 2000, "same_day"⟩] ∧
      s.pending_disposals = [] ∧ getPool s.pools "XYZ" = ⟨0, 0⟩ := by
  decide!

example : -- _test_thirty_day_matching
    let s := addAcquisitionCore (removeDisposalCore initPool 1 "ABC" 50 6000)
      15 "ABC" 50 4000
    s.disposals = [⟨1, "ABC", 50, 6000, 4000, 2000, "thirty_day"⟩] ∧
      s.pending_disposals = [] ∧ getPool s.pools "ABC" = ⟨0, 0⟩ := by
  decide!

/-- Mirror of `LotHolding` in `ibkr_trial_balance.py`: one FIFO acquisition lot. -/
structure LotHolding where
  date : ℤ
  symbol : String
  quantity : ℚ
  cost_gbp : ℚ
  asset_class : String
deriving DecidableEq

/-- Recursive mirror of the lot loop in
`TrialBalanceGenerator._calculate_fifo_cost`: walk the lots in order,
consuming whole lots while the remaining disposal quantity covers them and
splitting the first lot that it does not; returns the surviving lots and the
accumulated cost.  The partial-lot branch rounds with the `Decimal` context
default (`ROUND_HALF_EVEN`), matching `.quantize(Decimal('0.01'))`. -/
def fifoGo (lots : List LotHolding) (remaining total : ℚ) : List LotHolding × ℚ :=
  match lots with
  | [] => ([], total)
  | lot :: rest =>
    if remaining ≤ 0 then
      let r := fifoGo rest remaining total
      (lot :: r.1, r.2)
    else if lot.quantity ≤ remaining then
      fifoGo rest (remaining - lot.quantity) (total + lot.cost_gbp)
    else
      let fraction := remaining / lot.quantity
      let cost_consumed := quantize2HE (lot.cost_gbp * fraction)
      let r := fifoGo rest 0 (total + cost_consumed)
      ({ lot with quantity := lot.quantity - remaining,
                  cost_gbp := lot.cost_gbp - cost_consumed } :: r.1, r.2)

/-- Mirror of `TrialBalanceGenerator._calculate_fifo_cost` for one symbol:
`lots` is `self.holdings.get(symbol, [])`; the result is the new
`self.holdings[symbol]` and the returned total cost. -/
def calculate_fifo_cost (lots : List LotHolding) (quantity : ℚ) :
    List LotHolding × ℚ :=
  fifoGo lots quantity 0

/-- Mirror of `InterestReliefResult` in `tax_computation.py`. -/
structure InterestReliefResult where
  total_interest_paid : ℚ
  allowable_interest : ℚ
  disallowed_interest : ℚ
  icr_limit : ℚ
  taxable_earnings : ℚ
  icr_applicable : Bool
  warning : Option String
deriving DecidableEq

/-- Warning string attached by `calculate_interest_relief`. -/
def icrWarning : String :=
  "ICR calculation may not apply to investment companies. Seek professional tax advice."

/-- Mirror of `TaxComputation.calculate_interest_relief`.  The parameters are
the account figures the method reads: `interest_paid = self._debit('5600')`,
`interest_received = self._credit('4100')`, and `management_expenses` is the
sum `mgmt_ibkr + mgmt_other` of `calculate_management_expenses()`. -/
def calculate_interest_relief (interest_paid interest_received management_expenses : ℚ) :
    InterestReliefResult :=
  if interest_paid = 0 then
    ⟨0, 0, 0, 0, 0, false, none⟩
  else
    let taxable_earnings := interest_received - management_expenses
    if taxable_earnings ≤ 0 then
      ⟨interest_paid, 0, interest_paid, 0, taxable_earnings, true, some icrWarning⟩
    else
      let icr_limit := quantize2 (taxable_earnings * (30/100))
      if interest_paid ≤ icr_limit then
        ⟨interest_paid, interest_paid, 0, icr_limit, taxable_earnings, true, some icrWarning⟩
      else
        ⟨interest_paid, icr_limit, interest_paid - icr_limit, icr_limit, taxable_earnings,
         true, some icrWarning⟩

/-- Small-profits branch of `calculate_corporation_tax`: 19% up to 50000. -/
def lowerBandTax (profit : ℚ) : ℚ := quantize2 (profit * (19/100))

/-- Main-rate branch of `calculate_corporation_tax`: 25% at and above 250000. -/
def upperBandTax (profit : ℚ) : ℚ := quantize2 (profit * (25/100))

/-- Marginal-relief branch of `calculate_corporation_tax` for profits strictly
between 50000 and 250000. -/
def marginalReliefTax (profit : ℚ) : ℚ :=
  quantize2 (profit * (25/100) - (250000 - profit) * 3 / 200)

/-- Mirror of `TaxComputation.calculate_corporation_tax` applied to a given
taxable profit (the method's final `.quantize(Decimal('0.01'), ROUND_HALF_UP)`
is inside each band helper; a non-positive profit returns `Decimal('0')`
before any rounding). -/
def calculate_corporation_tax (profit : ℚ) : ℚ :=
  if profit ≤ 0 then 0
  else if profit ≤ 50000 then lowerBandTax profit
  else if profit ≥ 250000 then upperBandTax profit
  else marginalReliefTax profit

-- ---------------------------------------------------------------------------
-- Rounding lemmas
-- ---------------------------------------------------------------------------

/-- Half-up rounding of a nonnegative value at a nonnegative quantum is nonnegative. -/
theorem quantizeHU_nonneg {u x : ℚ} (hu : 0 ≤ u) (hx : 0 ≤ x) : 0 ≤ quantizeHU u x := by
  unfold quantizeHU
  rw [if_neg (not_lt.mpr hx)]
  have hfloor : (0 : ℤ) ≤ ⌊x / u + 1/2⌋ := by
    rw [Int.le_floor]
    push_cast
    have := div_nonneg hx hu
    linarith
  have : (0 : ℚ) ≤ (⌊x / u + 1/2⌋ : ℚ) := by exact_mod_cast hfloor
  exact mul_nonneg this hu

/-- Half-up rounding at a positive quantum is monotone. -/
theorem quantizeHU_mono {u x y : ℚ} (hu : 0 < u) (h : x ≤ y) :
    quantizeHU u x ≤ quantizeHU u y := by
  unfold quantizeHU
  split_ifs with hx hy hy
  · -- both negative
    have hdiv : -y / u ≤ -x / u := by
      apply div_le_div_of_nonneg_right _ hu.le
      linarith
    have hfl : ⌊-y / u + 1/2⌋ ≤ ⌊-x / u + 1/2⌋ := Int.floor_le_floor (by linarith)
    have : ((⌊-y / u + 1/2⌋ : ℤ) : ℚ) ≤ ((⌊-x / u + 1/2⌋ : ℤ) : ℚ) := by exact_mod_cast hfl
    nlinarith
  · -- x < 0 ≤ y: left side ≤ 0 ≤ right side
    have hleft : (0 : ℤ) ≤ ⌊-x / u + 1/2⌋ := by
      rw [Int.le_floor]
      push_cast
      have : 0 ≤ -x / u := div_nonneg (by linarith) hu.le
      linarith
    have hright : (0 : ℤ) ≤ ⌊y / u + 1/2⌋ := by
      rw [Int.le_floor]
      push_cast
      have : 0 ≤ y / u := div_nonneg (not_lt.mp hy) hu.le
      linarith
    have h1 : ((0 : ℤ) : ℚ) ≤ (⌊-x / u + 1/2⌋ : ℚ) := by exact_mod_cast hleft
    have h2 : ((0 : ℤ) : ℚ) ≤ (⌊y / u + 1/2⌋ : ℚ) := by exact_mod_cast hright
    nlinarith
  · -- x ≥ 0, y < 0: impossible
    exact absurd (lt_of_le_of_lt h hy) (not_lt.mpr (not_lt.mp hx))
  · -- both nonnegative
    have hfl : ⌊x / u + 1/2⌋ ≤ ⌊y / u + 1/2⌋ := by
      apply Int.floor_le_floor
      have : x / u ≤ y / u := by
        exact div_le_div_of_nonneg_right h hu.le
      linarith
    have : ((⌊x / u + 1/2⌋ : ℤ) : ℚ) ≤ ((⌊y / u + 1/2⌋ : ℤ) : ℚ) := by exact_mod_cast hfl
    nlinarith

-- ---------------------------------------------------------------------------
-- Claim theorems: tax computation (C8, C9, C10)
-- ---------------------------------------------------------------------------

/-- C9: the tiered corporation-tax function is continuous at both band
boundaries: the lower-band formula (19%) and the marginal-relief formula
agree at profit 50000, and the marginal-relief formula and the upper-band
formula (25%) agree at profit 250000. -/
theorem corporation_tax_band_continuity :
    lowerBandTax 50000 = marginalReliefTax 50000 ∧
      marginalReliefTax 250000 = upperBandTax 250000 ∧
      calculate_corporation_tax 50000 = lowerBandTax 50000 ∧
      calculate_corporation_tax 250000 = upperBandTax 250000 := by
  decide!

/-- C10: the corporation-tax function is monotone non-decreasing in taxable
profit: for profits p ≤ q, the liability at p is at most the liability at q,
despite the piecewise bands and marginal relief. -/
theorem corporation_tax_monotone (p q : ℚ) (h : p ≤ q) :
    calculate_corporation_tax p ≤ calculate_corporation_tax q := by
  have h100 : (0 : ℚ) < 1/100 := by norm_num
  unfold calculate_corporation_tax lowerBandTax upperBandTax marginalReliefTax quantize2
  split_ifs <;>
    first
      | rfl
      | linarith
      | (apply quantizeHU_nonneg (by norm_num); linarith)
      | (apply quantizeHU_mono h100; linarith)

/-- C10 witness: the monotonicity theorem at the concrete pair 40000 ≤ 140000. -/
theorem corporation_tax_monotone_witness :
    (40000 : ℚ) ≤ 140000 ∧
      calculate_corporation_tax 40000 ≤ calculate_corporation_tax 140000 :=
  ⟨by norm_num, corporation_tax_monotone 40000 140000 (by norm_num)⟩

/-- C8: for interest_paid > 0, the relief result reports
taxable_earnings = interest_income − deductible expenses; when that is ≤ 0
the allowable interest is 0, the whole payment is disallowed and the warning
is attached; otherwise allowable = min(paid, 30% of taxable earnings rounded
half-up to 2 dp) and disallowed is the remainder. -/
theorem interest_relief_spec (paid recv mgmt : ℚ) (hpaid : 0 < paid) :
    (calculate_interest_relief paid recv mgmt).taxable_earnings = recv - mgmt ∧
    (recv - mgmt ≤ 0 →
      (calculate_interest_relief paid recv mgmt).allowable_interest = 0 ∧
      (calculate_interest_relief paid recv mgmt).disallowed_interest = paid ∧
      (calculate_interest_relief paid recv mgmt).warning = some icrWarning) ∧
    (0 < recv - mgmt →
      (calculate_interest_relief paid recv mgmt).allowable_interest =
        min paid (quantize2 ((recv - mgmt) * (30/100))) ∧
      (calculate_interest_relief paid recv mgmt).disallowed_interest =
        paid - (calculate_interest_relief paid recv mgmt).allowable_interest) := by
  unfold calculate_interest_relief
  rw [if_neg (ne_of_gt hpaid)]
  by_cases hte : recv - mgmt ≤ 0
  · rw [if_pos hte]
    exact ⟨rfl, fun _ => ⟨rfl, rfl, rfl⟩, fun hlt => absurd hte (not_le.mpr hlt)⟩
  · rw [if_neg hte]
    by_cases hlim : paid ≤ quantize2 ((recv - mgmt) * (30/100))
    · rw [if_pos hlim]
      exact ⟨rfl, fun hle => absurd hle hte,
        fun _ => ⟨(min_eq_left hlim).symm, (sub_self paid).symm⟩⟩
    · rw [if_neg hlim]
      exact ⟨rfl, fun hle => absurd hle hte,
        fun _ => ⟨(min_eq_right (le_of_not_le hlim)).symm, rfl⟩⟩

/-- C8 witness: the interest-relief theorem at interest paid 8743.42,
interest received 1604.52, deductible expenses 1120.26 (the repository's own
mock-account figures). -/
theorem interest_relief_spec_witness :
    (0 : ℚ) < 874342/100 ∧
      ((calculate_interest_relief (874342/100) (160452/100) (112026/100)).taxable_earnings =
          160452/100 - 112026/100 ∧
      ((160452 : ℚ)/100 - 112026/100 ≤ 0 →
        (calculate_interest_relief (874342/100) (160452/100) (112026/100)).allowable_interest = 0 ∧
        (calculate_interest_relief (874342/100) (160452/100) (112026/100)).disallowed_interest =
          874342/100 ∧
        (calculate_interest_relief (874342/100) (160452/100) (112026/100)).warning =
          some icrWarning) ∧
      (0 < (160452 : ℚ)/100 - 112026/100 →
        (calculate_interest_relief (874342/100) (160452/100) (112026/100)).allowable_interest =
          min (874342/100) (quantize2 ((160452/100 - 112026/100) * (30/100))) ∧
        (calculate_interest_relief (874342/100) (160452/100) (112026/100)).disallowed_interest =
          874342/100 -
            (calculate_interest_relief (874342/100) (160452/100) (112026/100)).allowable_interest)) :=
  ⟨by norm_num, interest_relief_spec (874342/100) (160452/100) (112026/100) (by norm_num)⟩

-- ---------------------------------------------------------------------------
-- Claim theorems: FIFO ledger (C6)
-- ---------------------------------------------------------------------------

/-- Generalisation of the FIFO under-supply behaviour over the running
accumulator: when the lot quantities are nonnegative and their sum is below
the remaining disposal quantity, every lot is consumed whole. -/
theorem fifoGo_oversupply (lots : List LotHolding) (remaining total : ℚ)
    (hpos : ∀ l ∈ lots, 0 ≤ l.quantity)
    (hover : (lots.map (·.quantity)).sum < remaining) :
    fifoGo lots remaining total = ([], total + (lots.map (·.cost_gbp)).sum) := by
  induction lots generalizing remaining total with
  | nil => simp [fifoGo]
  | cons lot rest ih =>
    have hq : 0 ≤ lot.quantity := hpos lot (List.mem_cons_self lot rest)
    have hrest : 0 ≤ (rest.map (·.quantity)).sum := by
      apply List.sum_nonneg
      intro x hx
      obtain ⟨l, hl, rfl⟩ := List.mem_map.mp hx
      exact hpos l (List.mem_cons_of_mem lot hl)
    simp only [List.map_cons, List.sum_cons] at hover
    rw [fifoGo]
    rw [if_neg (by push_neg; linarith), if_pos (by linarith)]
    rw [ih (remaining - lot.quantity) (total + lot.cost_gbp)
      (fun l hl => hpos l (List.mem_cons_of_mem lot hl)) (by linarith)]
    simp [add_assoc]

/-- C6: a FIFO disposal whose requested quantity exceeds the total held lot
quantity consumes all available lots oldest-first: the function returns the
total cost of every lot, leaves no lots for the instrument, and (being a
total function) never raises on under-supply. -/
theorem fifo_oversupply (lots : List LotHolding) (qty : ℚ)
    (hpos : ∀ l ∈ lots, 0 ≤ l.quantity)
    (hover : (lots.map (·.quantity)).sum < qty) :
    calculate_fifo_cost lots qty = ([], (lots.map (·.cost_gbp)).sum) := by
  unfold calculate_fifo_cost
  rw [fifoGo_oversupply lots qty 0 hpos hover, zero_add]

/-- C6 witness: two lots of 10 and 5 units with a disposal of 20 units
consume both lots for their full costs 100 + 60. -/
theorem fifo_oversupply_witness :
    (∀ l ∈ [(⟨0, "VTI", 10, 100, "STK"⟩ : LotHolding), ⟨1, "VTI", 5, 60, "STK"⟩],
        0 ≤ l.quantity) ∧
    (([(⟨0, "VTI", 10, 100, "STK"⟩ : LotHolding), ⟨1, "VTI", 5, 60, "STK"⟩].map
        (·.quantity)).sum < 20) ∧
    calculate_fifo_cost [(⟨0, "VTI", 10, 100, "STK"⟩ : LotHolding), ⟨1, "VTI", 5, 60, "STK"⟩] 20 =
      ([], ([(⟨0, "VTI", 10, 100, "STK"⟩ : LotHolding), ⟨1, "VTI", 5, 60, "STK"⟩].map
        (·.cost_gbp)).sum) :=
  ⟨by decide!, by decide!,
    fifo_oversupply _ 20 (by decide!) (by decide!)⟩

-- ---------------------------------------------------------------------------
-- Claim theorems: contract on non-positive quantities (C7)
-- ---------------------------------------------------------------------------

/-- C7 counterexample: an acquisition and a disposal with negative quantity
do NOT raise a failure to the caller: both methods return normally with the
state unchanged. -/
theorem negative_qty_does_not_raise :
    add_acquisition initPool 0 "AAPL" (-1) 100 = Except.ok initPool ∧
      remove_disposal initPool 0 "AAPL" (-1) 100 = Except.ok initPool := by
  constructor
  · show Except.ok (addAcquisitionCore initPool 0 "AAPL" (-1) 100) = _
    rw [addAcquisitionCore, if_pos (by norm_num)]
  · show Except.ok (removeDisposalCore initPool 0 "AAPL" (-1) 100) = _
    rw [removeDisposalCore, if_pos (by norm_num)]

/-- C7 (amended): events with non-positive quantity are silently ignored,
not raised: `add_acquisition` and `remove_disposal` return normally (no
exception) and leave the engine state unchanged. -/
theorem nonpositive_qty_silently_ignored (s : Section104Pool) (d : ℤ) (sym : String)
    (qty amount : ℚ) (h : qty ≤ 0) :
    add_acquisition s d sym qty amount = Except.ok s ∧
      remove_disposal s d sym qty amount = Except.ok s := by
  constructor
  · show Except.ok (addAcquisitionCore s d sym qty amount) = _
    rw [addAcquisitionCore, if_pos h]
  · show Except.ok (removeDisposalCore s d sym qty amount) = _
    rw [removeDisposalCore, if_pos h]

/-- C7 witness: the amended claim at a concrete negative-quantity event. -/
theorem nonpositive_qty_silently_ignored_witness :
    ((-2 : ℚ) ≤ 0) ∧
      (add_acquisition initPool 5 "VT" (-2) 7 = Except.ok initPool ∧
        remove_disposal initPool 5 "VT" (-2) 7 = Except.ok initPool) :=
  ⟨by norm_num, nonpositive_qty_silently_ignored initPool 5 "VT" (-2) 7 (by norm_num)⟩

-- ---------------------------------------------------------------------------
-- Claim theorems: end-of-stream flush (C4)
-- ---------------------------------------------------------------------------

/-- The pending list produced by the flush loop: an element survives exactly
when it is of another symbol, already exhausted, or its 30-day window is
still open. -/
theorem foldl_flushStep_pending (symbol : String) (B : ℤ) (l : List DisposalRecord)
    (pool : PoolEntry) (np : List DisposalRecord) (ds : List MatchedDisposal)
    (ws : List String) :
    (l.foldl (flushStep symbol B) (pool, np, ds, ws)).2.1 =
      np ++ l.filter
        (fun d => decide ¬(d.symbol = symbol ∧ 0 < d.qty_remaining ∧ d.date + 30 < B)) := by
  induction l generalizing pool np ds ws with
  | nil => simp
  | cons d l ih =>
    rw [List.foldl_cons, List.filter_cons]
    by_cases h1 : d.symbol ≠ symbol ∨ d.qty_remaining ≤ 0
    · rw [show flushStep symbol B (pool, np, ds, ws) d = (pool, np ++ [d], ds, ws) from by
        simp only [flushStep]; rw [if_pos h1]]
      rw [ih]
      have : (decide ¬(d.symbol = symbol ∧ 0 < d.qty_remaining ∧ d.date + 30 < B)) = true := by
        simp only [decide_eq_true_eq]
        rcases h1 with h | h
        · exact fun hc => h hc.1
        · exact fun hc => absurd hc.2.1 (not_lt.mpr h)
      rw [this, if_pos rfl]
      simp
    · by_cases h2 : d.date + 30 ≥ B
      · rw [show flushStep symbol B (pool, np, ds, ws) d = (pool, np ++ [d], ds, ws) from by
          simp only [flushStep]; rw [if_neg h1, if_pos h2]]
        rw [ih]
        have : (decide ¬(d.symbol = symbol ∧ 0 < d.qty_remaining ∧ d.date + 30 < B)) = true := by
          simp only [decide_eq_true_eq]
          exact fun hc => absurd hc.2.2 (not_lt.mpr h2)
        rw [this, if_pos rfl]
        simp
      · rw [show flushStep symbol B (pool, np, ds, ws) d =
            ((flushOne pool d ws).1, np, ds ++ [(flushOne pool d ws).2.1],
              (flushOne pool d ws).2.2) from by
          simp only [flushStep]; rw [if_neg h1, if_neg h2]]
        rw [ih]
        have : (decide ¬(d.symbol = symbol ∧ 0 < d.qty_remaining ∧ d.date + 30 < B)) = false := by
          push_neg at h1 h2
          simp only [decide_eq_false_iff_not, not_not]
          exact ⟨h1.1, h1.2, h2⟩
        rw [this]
        simp

/-- Pending disposals after one `_flush_pending_disposals_for_symbol` call. -/
theorem flushPendingForSymbol_pending (s : Section104Pool) (symbol : String) (B : ℤ) :
    (flushPendingForSymbol s symbol B).pending_disposals =
      s.pending_disposals.filter
        (fun d => decide ¬(d.symbol = symbol ∧ 0 < d.qty_remaining ∧ d.date + 30 < B)) := by
  simp only [flushPendingForSymbol]
  rw [foldl_flushStep_pending]
  simp

/-- Pending disposals after flushing a list of symbols in sequence. -/
theorem foldl_flush_symbols_pending (L : List String) (s : Section104Pool) (B : ℤ) :
    ((L.foldl (fun st sym => flushPendingForSymbol st sym B) s)).pending_disposals =
      s.pending_disposals.filter
        (fun d => decide ¬(d.symbol ∈ L ∧ 0 < d.qty_remaining ∧ d.date + 30 < B)) := by
  induction L generalizing s with
  | nil => simp
  | cons a L ih =>
    rw [List.foldl_cons, ih, flushPendingForSymbol_pending, List.filter_filter]
    apply List.filter_congr
    intro d _
    rw [Bool.eq_iff_iff]
    simp only [Bool.and_eq_true, decide_eq_true_eq, List.mem_cons]
    tauto

/-- C4: after `flush_all_pending` the pending-disposal set is empty, and a
second call to `flush_all_pending` is a no-op: it returns the state
unchanged (no new `MatchedDisposal` records, pools untouched).  The
hypotheses record that every pending disposal has positive remaining
quantity (true of every state the engine can reach) and a date more than
30 days before `date(9999, 12, 31)` (true of every date Python can add
`timedelta(days=30)` to without overflow). -/
theorem flush_all_pending_idempotent (s : Section104Pool)
    (hqty : ∀ d ∈ s.pending_disposals, 0 < d.qty_remaining)
    (hdate : ∀ d ∈ s.pending_disposals, d.date + 30 < maxDateOrdinal) :
    (flushAllPending s).pending_disposals = [] ∧
      flushAllPending (flushAllPending s) = flushAllPending s := by
  have h1 : (flushAllPending s).pending_disposals = [] := by
    unfold flushAllPending
    rw [foldl_flush_symbols_pending]
    rw [List.filter_eq_nil_iff]
    intro d hd
    simp only [decide_eq_true_eq, not_not, Bool.not_eq_true]
    exact ⟨List.mem_dedup.mpr (List.mem_map_of_mem (·.symbol) hd), hqty d hd, hdate d hd⟩
  refine ⟨h1, ?_⟩
  generalize hgen : flushAllPending s = t at h1 ⊢
  unfold flushAllPending
  rw [h1]
  simp

/-- C4 witness: the idempotence theorem on the state reached by one
acquisition followed by one disposal. -/
theorem flush_all_pending_idempotent_witness :
    (∀ d ∈ (removeDisposalCore (addAcquisitionCore initPool 0 "A" 5 50)
        40 "A" 5 60).pending_disposals, 0 < d.qty_remaining) ∧
    (∀ d ∈ (removeDisposalCore (addAcquisitionCore initPool 0 "A" 5 50)
        40 "A" 5 60).pending_disposals, d.date + 30 < maxDateOrdinal) ∧
    ((flushAllPending (removeDisposalCore (addAcquisitionCore initPool 0 "A" 5 50)
        40 "A" 5 60)).pending_disposals = [] ∧
      flushAllPending (flushAllPending (removeDisposalCore
          (addAcquisitionCore initPool 0 "A" 5 50) 40 "A" 5 60)) =
        flushAllPending (removeDisposalCore
          (addAcquisitionCore initPool 0 "A" 5 50) 40 "A" 5 60)) :=
  ⟨by decide!, by decide!,
    flush_all_pending_idempotent _ (by decide!) (by decide!)⟩

-- ---------------------------------------------------------------------------
-- Claim theorems: pool underflow (C5) and pool averaging (C3)
-- ---------------------------------------------------------------------------

/-- C5 counterexample: a partially sufficient pool (10 units, cost 100)
flushed against a disposal of 20 units emits NO warning, and the uncovered
portion is not treated as zero cost: the full 20 units are charged at the
pool average (cost 200, exceeding the pool's whole cost of 100). -/
theorem pool_underflow_partial_counterexample :
    (flushAllPending (removeDisposalCore (addAcquisitionCore initPool 0 "A" 10 100)
        40 "A" 20 77)).warnings = [] ∧
    (flushAllPending (removeDisposalCore (addAcquisitionCore initPool 0 "A" 10 100)
        40 "A" 20 77)).disposals.map (fun m => m.cost_gbp) = [200] ∧
    getPool (flushAllPending (removeDisposalCore (addAcquisitionCore initPool 0 "A" 10 100)
        40 "A" 20 77)).pools "A" = ⟨0, 0⟩ := by
  decide!

/-- C5 (amended): a flush that would overdraw the pool clamps the pool's
quantity and cost to zero (they never go negative) and processing continues
(the functions are total), but the warning is emitted only when the pool is
empty (`qty ≤ 0`), in which case the whole flushed portion is charged zero
cost; a merely partially sufficient pool is flushed silently, with the full
quantity charged at the pool's average cost. -/
theorem pool_underflow_clamped :
    (∀ (pool : PoolEntry) (d : DisposalRecord) (ws : List String), pool.qty ≤ 0 →
      flushOne pool d ws =
        (pool,
         ⟨d.date, d.symbol, d.qty_remaining,
          quantize2 (d.total_proceeds_gbp * d.qty_remaining / d.original_qty), 0,
          quantize2 (d.total_proceeds_gbp * d.qty_remaining / d.original_qty) - 0,
          "section_104"⟩,
         ws ++ ["Section 104 flush but pool empty. Using zero cost."])) ∧
    (∀ (pool : PoolEntry) (d : DisposalRecord) (ws : List String),
      0 < pool.qty → pool.qty < d.qty_remaining →
        (flushOne pool d ws).1.qty = 0 ∧
        0 ≤ (flushOne pool d ws).1.cost ∧
        (flushOne pool d ws).2.1.cost_gbp =
          quantize2 (pool.cost / pool.qty * d.qty_remaining) ∧
        (flushOne pool d ws).2.2 = ws) := by
  constructor
  · intro pool d ws h
    unfold flushOne
    rw [if_pos h]
  · intro pool d ws h1 h2
    unfold flushOne
    rw [if_neg (not_le.mpr h1)]
    refine ⟨?_, ?_, rfl, rfl⟩
    · simp only
      rw [if_pos (by linarith)]
    · simp only
      split_ifs with hc
      · exact le_refl 0
      · exact not_lt.mp hc

/-- C5 witness: the amended clamping behaviour at the empty pool ⟨0, 0⟩ and
at the partially sufficient pool ⟨10, 100⟩ against a 20-unit disposal. -/
theorem pool_underflow_clamped_witness :
    ((0 : ℚ) ≤ 0 ∧
      flushOne ⟨0, 0⟩ ⟨40, "A", 20, 20, 77⟩ [] =
        (⟨0, 0⟩,
         ⟨40, "A", 20, quantize2 ((77 : ℚ) * 20 / 20), 0,
          quantize2 ((77 : ℚ) * 20 / 20) - 0, "section_104"⟩,
         [] ++ ["Section 104 flush but pool empty. Using zero cost."])) ∧
    ((0 : ℚ) < 10 ∧ (10 : ℚ) < 20 ∧
      ((flushOne ⟨10, 100⟩ ⟨40, "A", 20, 20, 77⟩ []).1.qty = 0 ∧
       0 ≤ (flushOne ⟨10, 100⟩ ⟨40, "A", 20, 20, 77⟩ []).1.cost ∧
       (flushOne ⟨10, 100⟩ ⟨40, "A", 20, 20, 77⟩ []).2.1.cost_gbp =
         quantize2 ((100 : ℚ) / 10 * 20) ∧
       (flushOne ⟨10, 100⟩ ⟨40, "A", 20, 20, 77⟩ []).2.2 = [])) :=
  ⟨⟨le_refl 0, pool_underflow_clamped.1 ⟨0, 0⟩ ⟨40, "A", 20, 20, 77⟩ [] (le_refl 0)⟩,
   ⟨by norm_num, by norm_num,
    pool_underflow_clamped.2 ⟨10, 100⟩ ⟨40, "A", 20, 20, 77⟩ [] (by norm_num) (by norm_num)⟩⟩

/-- C3 counterexample: a pool holding quantity 1 at cost 0.006 (= 3/500),
flushed against a disposal of quantity 1 (so q ≤ TQ and TQ > 0), records a
consumed cost of 0.01 (the half-up rounding of 0.006), but the pool's cost
only decreases from 0.006 to 0 (clamped), not by the consumed 0.01. -/
theorem pool_debit_clamp_counterexample :
    getPool (removeDisposalCore (addAcquisitionCore initPool 0 "A" 1 (3/500))
        40 "A" 1 10).pools "A" = ⟨1, 3/500⟩ ∧
    (flushAllPending (removeDisposalCore (addAcquisitionCore initPool 0 "A" 1 (3/500))
        40 "A" 1 10)).disposals.map (fun m => m.cost_gbp) = [1/100] ∧
    getPool (flushAllPending (removeDisposalCore (addAcquisitionCore initPool 0 "A" 1 (3/500))
        40 "A" 1 10)).pools "A" = ⟨0, 0⟩ ∧
    (3 : ℚ)/500 - 0 ≠ 1/100 := by
  decide!

/-- C3 (amended): a disposal of quantity q flushed against a pool of quantity
TQ > 0 and cost TC with q ≤ TQ consumes cost quantize2(q · TC/TQ) (pro-rata
average, rounded half-up at 2 dp), and — provided that rounded consumed cost
does not exceed TC (otherwise the pool cost clamps to zero) — the pool's
quantity and cost decrease by exactly the consumed amounts.  In particular
the two spec scenarios: 100@150 and 50@80 then a flushed disposal of 75
consumes cost 115 leaving pool ⟨75, 115⟩; and 100@15000 and 50@8000 then a
flushed disposal of 75 for proceeds 13500 yields cost 11500, gain 2000,
rule `section_104`, leaving pool ⟨75, 11500⟩. -/
theorem pool_debit_pro_rata :
    (∀ (pool : PoolEntry) (d : DisposalRecord) (ws : List String),
      0 < pool.qty → d.qty_remaining ≤ pool.qty →
      quantize2 (pool.cost / pool.qty * d.qty_remaining) ≤ pool.cost →
      flushOne pool d ws =
        (⟨pool.qty - d.qty_remaining,
          pool.cost - quantize2 (pool.cost / pool.qty * d.qty_remaining)⟩,
         ⟨d.date, d.symbol, d.qty_remaining,
          quantize2 (d.total_proceeds_gbp * d.qty_remaining / d.original_qty),
          quantize2 (pool.cost / pool.qty * d.qty_remaining),
          quantize2 (d.total_proceeds_gbp * d.qty_remaining / d.original_qty) -
            quantize2 (pool.cost / pool.qty * d.qty_remaining),
          "section_104"⟩, ws)) ∧
    ((flushAllPending (removeDisposalCore (addAcquisitionCore
        (addAcquisitionCore initPool 0 "A" 100 150) 0 "A" 50 80)
        1 "A" 75 200)).disposals.map (fun m => m.cost_gbp) = [115] ∧
      getPool (flushAllPending (removeDisposalCore (addAcquisitionCore
        (addAcquisitionCore initPool 0 "A" 100 150) 0 "A" 50 80)
        1 "A" 75 200)).pools "A" = ⟨75, 115⟩) ∧
    ((flushAllPending (removeDisposalCore (addAcquisitionCore
        (addAcquisitionCore initPool 0 "AAPL" 100 15000) 14 "AAPL" 50 8000)
        30 "AAPL" 75 13500)).disposals =
          [⟨30, "AAPL", 75, 13500, 11500, 2000, "section_104"⟩] ∧
      getPool (flushAllPending (removeDisposalCore (addAcquisitionCore
        (addAcquisitionCore initPool 0 "AAPL" 100 15000) 14 "AAPL" 50 8000)
        30 "AAPL" 75 13500)).pools "AAPL" = ⟨75, 11500⟩) := by
  refine ⟨?_, by decide!, by decide!⟩
  intro pool d ws hTQ hqle hcost
  unfold flushOne
  rw [if_neg (not_le.mpr hTQ)]
  simp only
  rw [if_neg (by rw [not_lt]; linarith), if_neg (by rw [not_lt]; linarith)]

/-- C3 witness: the pro-rata debit theorem at the pool ⟨150, 230⟩ and a
75-unit disposal. -/
theorem pool_debit_pro_rata_witness :
    ((0 : ℚ) < 150 ∧ (75 : ℚ) ≤ 150 ∧
      quantize2 ((230 : ℚ) / 150 * 75) ≤ 230) ∧
    flushOne ⟨150, 230⟩ ⟨40, "A", 75, 75, 200⟩ [] =
      (⟨150 - 75, 230 - quantize2 ((230 : ℚ) / 150 * 75)⟩,
       ⟨40, "A", 75, quantize2 ((200 : ℚ) * 75 / 75),
        quantize2 ((230 : ℚ) / 150 * 75),
        quantize2 ((200 : ℚ) * 75 / 75) - quantize2 ((230 : ℚ) / 150 * 75),
        "section_104"⟩, []) :=
  ⟨⟨by norm_num, by norm_num, by decide!⟩,
   pool_debit_pro_rata.1 ⟨150, 230⟩ ⟨40, "A", 75, 75, 200⟩ []
     (by norm_num) (by norm_num) (by decide!)⟩

-- ---------------------------------------------------------------------------
-- Claim theorems: same-day (C1) and 30-day (C2) matching
-- ---------------------------------------------------------------------------

/-- Reading back the pool entry just written. -/
theorem getPool_setPool (ps : List (String × PoolEntry)) (sym : String) (p : PoolEntry) :
    getPool (setPool ps sym p) sym = p := by
  simp [getPool, setPool, List.lookup]

/-- `remove_disposal` on a state with no pending disposals only touches the
symbol's (defaultdict) pool entry and appends the new pending record. -/
theorem removeDisposal_no_pending (s : Section104Pool) (D : ℤ) (sym : String) (Q P : ℚ)
    (hQ : 0 < Q) (hpend : s.pending_disposals = []) :
    removeDisposalCore s D sym Q P =
      { pools := setPool s.pools sym (getPool s.pools sym)
        pending_disposals := [⟨D, sym, Q, Q, P⟩]
        disposals := s.disposals
        warnings := s.warnings } := by
  unfold removeDisposalCore flushPendingForSymbol
  rw [if_neg (not_le.mpr hQ), hpend]
  simp

/-- An acquisition of quantity Q on date D against a single pending disposal
of the same symbol, same date and the same quantity Q: the disposal is fully
matched same-day and the pool is not touched. -/
theorem addAcq_single_same_day (s : Section104Pool) (D : ℤ) (sym : String) (Q P C : ℚ)
    (hQ : 0 < Q) (hpend : s.pending_disposals = [⟨D, sym, Q, Q, P⟩]) :
    addAcquisitionCore s D sym Q C =
      { pools := s.pools
        pending_disposals := []
        disposals := s.disposals ++
          [⟨D, sym, Q, quantize2 P, quantize2 (quantize4 (C / Q) * Q),
            quantize2 P - quantize2 (quantize4 (C / Q) * Q), "same_day"⟩]
        warnings := s.warnings } := by
  unfold addAcquisitionCore
  rw [if_neg (not_le.mpr hQ), hpend]
  simp [List.enum, List.enumFrom, List.filter, sortByDate, List.foldl, List.getD,
    hQ.not_le, min_self, sub_self, lt_irrefl, mul_div_cancel_right₀, hQ.ne']

/-- C1 counterexample: disposal of 300 units for 600, then a same-day
acquisition of 300 units at total cost 1.  The recorded cost is
quantize2(quantize4(1/300) · 300) = 0.99, NOT the acquisition's full cost 1
(the 0.0033 rounded unit cost loses 0.01 over 300 units, and the residual
0.01 of acquisition cost is dropped, not pooled). -/
theorem same_day_full_cost_counterexample :
    (addAcquisitionCore (removeDisposalCore initPool 0 "A" 300 600) 0 "A" 300 1).disposals.map
        (fun m => m.cost_gbp) = [99/100] ∧
      (99 : ℚ)/100 ≠ 1 := by
  decide!

/-- C1 (amended): a disposal of quantity Q on date D followed by a same-day
acquisition of quantity Q (no other pending disposals of the instrument, no
existing pool quantity) emits exactly one `MatchedDisposal`, tagged
`same_day`, with cost equal to the acquisition's 4-dp-rounded unit cost
times Q rounded to 2 dp — which equals the acquisition's full cost only when
that round-trip is exact — proceeds equal to the disposal's proceeds rounded
to 2 dp, and the instrument's pool quantity is zero afterwards. -/
theorem same_day_full_match (s : Section104Pool) (D : ℤ) (sym : String) (Q P C : ℚ)
    (hQ : 0 < Q) (hpend : s.pending_disposals = [])
    (hpool : (getPool s.pools sym).qty = 0) :
    (addAcquisitionCore (removeDisposalCore s D sym Q P) D sym Q C).disposals =
      s.disposals ++
        [⟨D, sym, Q, quantize2 P, quantize2 (quantize4 (C / Q) * Q),
          quantize2 P - quantize2 (quantize4 (C / Q) * Q), "same_day"⟩] ∧
    (addAcquisitionCore (removeDisposalCore s D sym Q P) D sym Q C).pending_disposals = [] ∧
    (getPool (addAcquisitionCore (removeDisposalCore s D sym Q P) D sym Q C).pools sym).qty
      = 0 := by
  rw [removeDisposal_no_pending s D sym Q P hQ hpend,
    addAcq_single_same_day _ D sym Q P C hQ rfl]
  refine ⟨rfl, rfl, ?_⟩
  rw [getPool_setPool]
  exact hpool

/-- C1 witness: the amended same-day theorem at the repository's own test
vector (100 units disposed for 11000, re-acquired same day for 9000). -/
theorem same_day_full_match_witness :
    ((0 : ℚ) < 100 ∧ initPool.pending_disposals = [] ∧
      (getPool initPool.pools "XYZ").qty = 0) ∧
    ((addAcquisitionCore (removeDisposalCore initPool 10 "XYZ" 100 11000)
        10 "XYZ" 100 9000).disposals =
      initPool.disposals ++
        [⟨10, "XYZ", 100, quantize2 11000, quantize2 (quantize4 ((9000 : ℚ) / 100) * 100),
          quantize2 11000 - quantize2 (quantize4 ((9000 : ℚ) / 100) * 100), "same_day"⟩] ∧
    (addAcquisitionCore (removeDisposalCore initPool 10 "XYZ" 100 11000)
        10 "XYZ" 100 9000).pending_disposals = [] ∧
    (getPool (addAcquisitionCore (removeDisposalCore initPool 10 "XYZ" 100 11000)
        10 "XYZ" 100 9000).pools "XYZ").qty = 0) :=
  ⟨⟨by norm_num, rfl, rfl⟩,
    same_day_full_match initPool 10 "XYZ" 100 11000 9000 (by norm_num) rfl rfl⟩

/-- An acquisition on date `aD` against a single pending disposal of the same
symbol and quantity dated `dD` strictly before `aD` but within the 30-day
window: the disposal is fully matched as `thirty_day` and the pool is not
touched. -/
theorem addAcq_single_thirty_day (s : Section104Pool) (dD aD : ℤ) (sym : String)
    (Q P C : ℚ) (hQ : 0 < Q) (hlt : dD < aD) (hle : aD - dD ≤ 30)
    (hpend : s.pending_disposals = [⟨dD, sym, Q, Q, P⟩]) :
    addAcquisitionCore s aD sym Q C =
      { pools := s.pools
        pending_disposals := []
        disposals := s.disposals ++
          [⟨dD, sym, Q, quantize2 P, quantize2 (quantize4 (C / Q) * Q),
            quantize2 P - quantize2 (quantize4 (C / Q) * Q), "thirty_day"⟩]
        warnings := s.warnings } := by
  unfold addAcquisitionCore
  rw [if_neg (not_le.mpr hQ), hpend]
  simp [List.enum, List.enumFrom, List.filter, sortByDate, insertByDate, List.foldl,
    List.getD, hQ.not_le, min_self, sub_self, hlt, hle, hlt.ne,
    mul_div_cancel_right₀, hQ.ne']

/-- An acquisition on day 31 against a single pending disposal dated day 0:
the 30-day window is closed, so nothing matches and the whole acquisition is
credited to the pool. -/
theorem addAcq_single_no_window (s : Section104Pool) (sym : String) (Q P C : ℚ)
    (hQ : 0 < Q) (hpend : s.pending_disposals = [⟨0, sym, Q, Q, P⟩]) :
    addAcquisitionCore s 31 sym Q C =
      { pools := setPool s.pools sym
          ⟨(getPool s.pools sym).qty + Q, (getPool s.pools sym).cost + C⟩
        pending_disposals := [⟨0, sym, Q, Q, P⟩]
        disposals := s.disposals
        warnings := s.warnings } := by
  unfold addAcquisitionCore
  rw [if_neg (not_le.mpr hQ), hpend]
  simp [List.enum, List.enumFrom, List.filter, sortByDate, List.foldl, List.getD,
    hQ, hQ.not_le]

/-- End-of-stream flush of a single pending disposal (day 0, quantity Q)
against a pool holding exactly quantity Q at cost `cost0`: one `section_104`
record with cost quantize2(cost0). -/
theorem flushAll_single_pending (s : Section104Pool) (sym : String) (Q P cost0 : ℚ)
    (hQ : 0 < Q) (hpend : s.pending_disposals = [⟨0, sym, Q, Q, P⟩])
    (hpool : getPool s.pools sym = ⟨Q, cost0⟩) :
    (flushAllPending s).disposals = s.disposals ++
        [⟨0, sym, Q, quantize2 P, quantize2 cost0,
          quantize2 P - quantize2 cost0, "section_104"⟩] ∧
      (flushAllPending s).pending_disposals = [] := by
  unfold flushAllPending flushPendingForSymbol
  rw [hpend]
  simp only [List.map_cons, List.map_nil, List.dedup_nil, List.dedup_cons_of_not_mem,
    List.not_mem_nil, not_false_iff, List.foldl_cons, List.foldl_nil]
  rw [hpend, hpool]
  simp [flushStep, flushOne, maxDateOrdinal, hQ.not_le, hQ.ne',
    div_mul_cancel₀, mul_div_cancel_right₀]

/-- C2 counterexample: disposal of 300 units on day 0 for 600, acquisition of
300 units on day 15 at total cost 1: the match is tagged `thirty_day` but its
recorded cost is 0.99 (4-dp unit cost 0.0033 times 300, rounded), not the
acquisition's cost 1. -/
theorem thirty_day_full_cost_counterexample :
    (addAcquisitionCore (removeDisposalCore initPool 0 "A" 300 600) 15 "A" 300 1).disposals.map
        (fun m => (m.matching_rule, m.cost_gbp)) = [("thirty_day", 99/100)] ∧
      (99 : ℚ)/100 ≠ 1 := by
  decide!

/-- C2 (amended): for a pending disposal of quantity Q on day 0 followed by
an acquisition of quantity Q of the same instrument (fresh instrument: no
other pending disposals, empty pool): on day 15 the match is tagged
`thirty_day` with cost equal to the acquisition's 4-dp-rounded unit cost
times Q rounded to 2 dp (the acquisition's full cost only when that
round-trip is exact); on day 31 no same-day or 30-day match occurs — the
acquisition's full quantity and cost are credited to the pool, the disposal
stays pending, and the end-of-stream flush then emits a `MatchedDisposal`
tagged `section_104` against the pool. -/
theorem thirty_day_window (s : Section104Pool) (sym : String) (Q P C : ℚ)
    (hQ : 0 < Q) (hpend : s.pending_disposals = [])
    (hpool : getPool s.pools sym = ⟨0, 0⟩) :
    ((addAcquisitionCore (removeDisposalCore s 0 sym Q P) 15 sym Q C).disposals =
        s.disposals ++
          [⟨0, sym, Q, quantize2 P, quantize2 (quantize4 (C / Q) * Q),
            quantize2 P - quantize2 (quantize4 (C / Q) * Q), "thirty_day"⟩] ∧
      (addAcquisitionCore (removeDisposalCore s 0 sym Q P) 15 sym Q C).pending_disposals
        = []) ∧
    ((addAcquisitionCore (removeDisposalCore s 0 sym Q P) 31 sym Q C).disposals =
        s.disposals ∧
      getPool (addAcquisitionCore (removeDisposalCore s 0 sym Q P) 31 sym Q C).pools sym
        = ⟨Q, C⟩ ∧
      (addAcquisitionCore (removeDisposalCore s 0 sym Q P) 31 sym Q C).pending_disposals
        = [⟨0, sym, Q, Q, P⟩] ∧
      (flushAllPending
          (addAcquisitionCore (removeDisposalCore s 0 sym Q P) 31 sym Q C)).disposals =
        s.disposals ++
          [⟨0, sym, Q, quantize2 P, quantize2 C,
            quantize2 P - quantize2 C, "section_104"⟩] ∧
      (flushAllPending
          (addAcquisitionCore (removeDisposalCore s 0 sym Q P) 31 sym Q C)).pending_disposals
        = []) := by
  have hrm := removeDisposal_no_pending s 0 sym Q P hQ hpend
  constructor
  · rw [hrm, addAcq_single_thirty_day _ 0 15 sym Q P C hQ (by norm_num) (by norm_num) rfl]
    exact ⟨rfl, rfl⟩
  · rw [hrm, addAcq_single_no_window _ sym Q P C hQ rfl]
    have hget : getPool (setPool s.pools sym (getPool s.pools sym)) sym = ⟨0, 0⟩ := by
      rw [getPool_setPool, hpool]
    rw [hget]
    refine ⟨rfl, ?_, rfl, ?_⟩
    · simp only
      rw [getPool_setPool]
      norm_num
    · have := flushAll_single_pending
        { pools := setPool (setPool s.pools sym (getPool s.pools sym)) sym ⟨0 + Q, 0 + C⟩
          pending_disposals := [⟨0, sym, Q, Q, P⟩]
          disposals := s.disposals
          warnings := s.warnings } sym Q P C hQ rfl
        (by simp only; rw [getPool_setPool]; norm_num)
      exact ⟨this.1, this.2⟩

/-- C2 witness: the amended 30-day theorem at the repository's test vector
(50 units disposed day 0 for 6000, re-acquired for 4000 on day 15 / day 31). -/
theorem thirty_day_window_witness :
    ((0 : ℚ) < 50 ∧ initPool.pending_disposals = [] ∧
      getPool initPool.pools "ABC" = ⟨0, 0⟩) ∧
    (((addAcquisitionCore (removeDisposalCore initPool 0 "ABC" 50 6000)
          15 "ABC" 50 4000).disposals =
        initPool.disposals ++
          [⟨0, "ABC", 50, quantize2 6000, quantize2 (quantize4 ((4000 : ℚ) / 50) * 50),
            quantize2 6000 - quantize2 (quantize4 ((4000 : ℚ) / 50) * 50), "thirty_day"⟩] ∧
      (addAcquisitionCore (removeDisposalCore initPool 0 "ABC" 50 6000)
          15 "ABC" 50 4000).pending_disposals = []) ∧
    ((addAcquisitionCore (removeDisposalCore initPool 0 "ABC" 50 6000)
          31 "ABC" 50 4000).disposals = initPool.disposals ∧
      getPool (addAcquisitionCore (removeDisposalCore initPool 0 "ABC" 50 6000)
          31 "ABC" 50 4000).pools "ABC" = ⟨50, 4000⟩ ∧
      (addAcquisitionCore (removeDisposalCore initPool 0 "ABC" 50 6000)
          31 "ABC" 50 4000).pending_disposals = [⟨0, "ABC", 50, 50, 6000⟩] ∧
      (flushAllPending (addAcquisitionCore (removeDisposalCore initPool 0 "ABC" 50 6000)
          31 "ABC" 50 4000)).disposals =
        initPool.disposals ++
          [⟨0, "ABC", 50, quantize2 6000, quantize2 4000,
            quantize2 6000 - quantize2 4000, "section_104"⟩] ∧
      (flushAllPending (addAcquisitionCore (removeDisposalCore initPool 0 "ABC" 50 6000)
          31 "ABC" 50 4000)).pending_disposals = [])) :=
  ⟨⟨by norm_num, rfl, rfl⟩,
    thirty_day_window initPool "ABC" 50 6000 4000 (by norm_num) rfl rfl⟩
